import Mathlib

/-!
Verification of the socket-chat client in `app/page.tsx`.

The component's React state hooks and refs are embedded as one record
(`ClientState`), and every state-mutating entry point of the component
(the `connectToServer` / `sendMessage` / `closeConnection` callbacks, the
WebSocket `onopen` / `onmessage` / `onclose` / `onerror` handlers, and the
three `setTimeout` callbacks) is embedded as a pure state-transition
function.  Handlers are modelled as reading the current state at the time
they fire, and texts are modelled as `List Char` (JavaScript strings),
with `Char.toUpper` standing for JavaScript's per-character `toUpperCase`.

Timers are made explicit: the single tracked retry timer
(`retryTimeoutRef`) is an `Option Nat` holding its delay; the mock-reply
timers and the connect-timeout timers, whose handles the source never
stores, are pending lists that only firing can shrink.  Calls to
`WebSocket.close` are recorded in a ghost `closeLog` holding the close
code passed (`none` when `close()` is called with no code).
-/

/-- `mockServerResponse` from `page.tsx` lines 58-67: empty input yields the
fixed reply, a single character is upper-cased, otherwise the first
character is upper-cased and the rest kept unchanged. -/
def mockServerResponse : List Char → List Char
  | [] => "Empty message received".data
  | [c] => [c.toUpper]
  | c :: rest => c.toUpper :: rest

/-- The reference transform stated by the specification (§4.2), written
independently from the spec's words, for comparison with the code's
`mockServerResponse`. -/
def transformSpec (input : List Char) : List Char :=
  if input = [] then "Empty message received".data
  else if input.length = 1 then input.map Char.toUpper
  else input.head!.toUpper :: input.tail

/-- The whitespace characters removed by JavaScript `String.prototype.trim`
(the ones relevant to plain text input). -/
def isJsSpace (c : Char) : Bool :=
  c = ' ' || c = '\t' || c = '\n' || c = '\r' ||
  c = Char.ofNat 11 || c = Char.ofNat 12 || c = Char.ofNat 160

/-- JavaScript `String.prototype.trim` on a character list. -/
def jsTrim (l : List Char) : List Char :=
  ((l.dropWhile isJsSpace).reverse.dropWhile isJsSpace).reverse

/-- Event kinds of the `Message` interface (`page.tsx` lines 16-21). -/
inductive MsgType
  | sent
  | received
  | system
deriving DecidableEq, Repr

/-- One entry of the message log.  The `id` and `timestamp` fields of the
source's `Message` interface are presentation data (random id, wall-clock
time) and are not part of any claim, so they are omitted. -/
structure Message where
  type : MsgType
  content : List Char
deriving DecidableEq, Repr

/-- WebSocket ready states (`CONNECTING` / `OPEN` / `CLOSING` / `CLOSED`). -/
inductive ReadyState
  | connecting
  | opened
  | closing
  | closed
deriving DecidableEq, Repr

/-- The transport handle held in `wsRef`. -/
structure Handle where
  readyState : ReadyState
deriving DecidableEq, Repr

/-- The component state: the `useState` hooks, the refs, and the explicit
timer model described in the file header. -/
structure ClientState where
  message : List Char
  messages : List Message
  isConnected : Bool
  connectionStatus : List Char
  serverUrl : List Char
  isConnecting : Bool
  error : Option (List Char)
  useMockServer : Bool
  retryCount : Nat
  maxRetries : Nat
  wsRef : Option Handle
  retryTimer : Option Nat
  pendingReceives : List (Nat × List Char)
  pendingConnectTimeouts : List Nat
  closeLog : List (Option Nat)
deriving DecidableEq, Repr

/-- The error text set by `sendMessage` when the transport is absent or not
open (`page.tsx` line 194). -/
def errNotConnected : List Char :=
  "Not connected to server. Please connect first.".data

/-- The error text set while a retry is pending (`page.tsx` line 134). -/
def errRetrying (n m : Nat) : List Char :=
  ("Connection lost. Retrying... (" ++ Nat.repr n ++ "/" ++ Nat.repr m ++ ")").data

/-- The terminal error text after the retry budget is exhausted
(`page.tsx` lines 140-142). -/
def errMaxRetries : List Char :=
  "Failed to connect after multiple attempts. Try using Mock Server or check if Python server is running.".data

/-- The connect-timeout error text (`page.tsx` line 162). -/
def errTimeout : List Char :=
  "Connection timeout. Server may not be running.".data

/-- The transport-error text (`page.tsx` line 152). -/
def errWsError (url : List Char) : List Char :=
  "Failed to connect to Python server. Make sure the server is running on ".data ++ url

/-- The close-log entries produced by discarding a possibly present handle
with `close()` (no code). -/
def closeMark : Option Handle → List (Option Nat)
  | some _ => [none]
  | none => []

/-- `connectToServer` (`page.tsx` lines 69-172): a no-op while already
connecting; otherwise it clears the retry timer, discards a prior handle,
and either connects immediately in mock mode (lines 88-97) or creates a
new transport handle and schedules the 5000 ms connect timeout
(lines 100-164). -/
def connectToServer (s : ClientState) : ClientState :=
  if s.isConnecting then s
  else if s.useMockServer then
    { s with
      error := none
      retryTimer := none
      closeLog := s.closeLog ++ closeMark s.wsRef
      wsRef := none
      isConnected := true
      connectionStatus := "Connected (Mock Server)".data
      isConnecting := false
      retryCount := 0
      messages := s.messages ++
        [⟨MsgType.system, "🟢 Connected to Mock Server (Python server not required)".data⟩] }
  else
    { s with
      isConnecting := true
      error := none
      retryTimer := none
      closeLog := s.closeLog ++ closeMark s.wsRef
      wsRef := some ⟨ReadyState.connecting⟩
      pendingConnectTimeouts := s.pendingConnectTimeouts ++ [5000] }

/-- `ws.onopen` (`page.tsx` lines 104-111).  The transition of the handle's
ready state to `OPEN` is the browser's: the open signal fires exactly when
the transport opens. -/
def wsOpenHandler (s : ClientState) : ClientState :=
  { s with
    isConnected := true
    connectionStatus := "Connected".data
    isConnecting := false
    error := none
    retryCount := 0
    wsRef := s.wsRef.map (fun _ => ⟨ReadyState.opened⟩)
    messages := s.messages ++
      [⟨MsgType.system, "🟢 Connected to Python WebSocket server".data⟩] }

/-- `ws.onmessage` (`page.tsx` lines 113-116): appends received data
verbatim. -/
def wsMessageHandler (s : ClientState) (data : List Char) : ClientState :=
  { s with messages := s.messages ++ [⟨MsgType.received, data⟩] }

/-- `ws.onclose` (`page.tsx` lines 118-145).  A clean close only logs the
disconnect; an unclean close below the retry budget increments
`retryCount` and schedules a retry after `2000 * nextRetry` ms, and at or
above the budget sets the terminal error without scheduling anything. -/
def wsCloseHandler (s : ClientState) (wasClean : Bool) : ClientState :=
  if wasClean then
    { s with
      isConnected := false
      isConnecting := false
      wsRef := none
      connectionStatus := "Disconnected".data
      messages := s.messages ++ [⟨MsgType.system, "🔴 Connection closed".data⟩] }
  else if s.retryCount < s.maxRetries then
    { s with
      isConnected := false
      isConnecting := false
      wsRef := none
      connectionStatus := "Connection Lost".data
      messages := s.messages ++ [⟨MsgType.system, "⚠️ Connection lost unexpectedly".data⟩]
      retryCount := s.retryCount + 1
      error := some (errRetrying (s.retryCount + 1) s.maxRetries)
      retryTimer := some (2000 * (s.retryCount + 1)) }
  else
    { s with
      isConnected := false
      isConnecting := false
      wsRef := none
      connectionStatus := "Connection Lost".data
      messages := s.messages ++ [⟨MsgType.system, "⚠️ Connection lost unexpectedly".data⟩]
      error := some errMaxRetries }

/-- `ws.onerror` (`page.tsx` lines 147-155): sets the status and error text
and logs a system event; it touches neither `retryCount` nor any timer. -/
def wsErrorHandler (s : ClientState) : ClientState :=
  { s with
    connectionStatus := "Connection Error".data
    isConnecting := false
    error := some (errWsError s.serverUrl)
    messages := s.messages ++ [⟨MsgType.system, "❌ ".data ++ errWsError s.serverUrl⟩] }

/-- The body of the connect-timeout callback (`page.tsx` lines 158-164):
if the handle is still `CONNECTING` it is force-closed (no code) and the
timeout error is set; otherwise the firing has no effect. -/
def connectTimeoutBody (s : ClientState) : ClientState :=
  match s.wsRef with
  | some h =>
    if h.readyState = ReadyState.connecting then
      { s with
        wsRef := some ⟨ReadyState.closing⟩
        closeLog := s.closeLog ++ [none]
        isConnecting := false
        error := some errTimeout }
    else s
  | none => s

/-- One pending connect-timeout timer fires.  The source never stores this
timer's handle, so nothing but firing can remove a pending entry. -/
def connectTimeoutFire (s : ClientState) : ClientState :=
  match s.pendingConnectTimeouts with
  | [] => s
  | _ :: rest => connectTimeoutBody { s with pendingConnectTimeouts := rest }

/-- The retry timer fires (`page.tsx` lines 136-138): the stored timer is
consumed and `connectToServer` runs again. -/
def retryFire (s : ClientState) : ClientState :=
  match s.retryTimer with
  | none => s
  | some _ => connectToServer { s with retryTimer := none }

/-- One pending mock-reply timer fires (`page.tsx` lines 181-183): the
scheduled `received` event is appended. -/
def fireMockReceive (s : ClientState) : ClientState :=
  match s.pendingReceives with
  | [] => s
  | (_, content) :: rest =>
    { s with
      pendingReceives := rest
      messages := s.messages ++ [⟨MsgType.received, content⟩] }

/-- The transport-openness test of `sendMessage` (`page.tsx` line 189):
`wsRef.current && wsRef.current.readyState === WebSocket.OPEN`. -/
def wsIsOpen (s : ClientState) : Bool :=
  match s.wsRef with
  | some h => h.readyState = ReadyState.opened
  | none => false

/-- `sendMessage` (`page.tsx` lines 174-196).  Blank drafts are rejected
up front; the mock branch appends the `sent` event, schedules the mock
reply after 100 ms and clears the draft without any connection check; the
live branch forwards and logs only when the transport is open, and
otherwise sets only the error text. -/
def sendMessage (s : ClientState) : ClientState :=
  if jsTrim s.message = [] then s
  else if s.useMockServer then
    { s with
      messages := s.messages ++ [⟨MsgType.sent, s.message⟩]
      pendingReceives := s.pendingReceives ++ [(100, mockServerResponse s.message)]
      message := [] }
  else if wsIsOpen s then
    { s with
      messages := s.messages ++ [⟨MsgType.sent, s.message⟩]
      message := [] }
  else
    { s with error := some errNotConnected }

/-- `closeConnection` (`page.tsx` lines 198-221): always clears the retry
timer; the mock branch resets the connection flags and logs the
disconnect, returning before the handle close and the `retryCount` reset;
the live branch closes the handle with code 1000 and resets
`retryCount`. -/
def closeConnection (s : ClientState) : ClientState :=
  if s.useMockServer then
    { s with
      retryTimer := none
      isConnected := false
      connectionStatus := "Disconnected".data
      error := none
      messages := s.messages ++ [⟨MsgType.system, "🔴 Disconnected from Mock Server".data⟩] }
  else
    { s with
      retryTimer := none
      closeLog := s.closeLog ++ (match s.wsRef with | some _ => [some 1000] | none => [])
      wsRef := none
      isConnected := false
      connectionStatus := "Disconnected".data
      error := none
      retryCount := 0 }

/-- `clearMessages` (`page.tsx` lines 223-225). -/
def clearMessages (s : ClientState) : ClientState :=
  { s with messages := [] }

/-- `toggleMockServer` (`page.tsx` lines 253-260): switches the mode,
disconnects if connected, then clears the error and `retryCount`. -/
def toggleMockServer (s : ClientState) (enabled : Bool) : ClientState :=
  let s1 : ClientState := { s with useMockServer := enabled }
  let s2 : ClientState := if s1.isConnected then closeConnection s1 else s1
  { s2 with error := none, retryCount := 0 }

/-- Every state-mutating entry point of the component, as a single step
alphabet for invariant proofs. -/
inductive Op
  | connect
  | wsOpen
  | wsMessage (data : List Char)
  | wsClose (wasClean : Bool)
  | wsError
  | timeoutFire
  | retryTimerFire
  | mockReceiveFire
  | send
  | disconnect
  | clearLog
  | setDraft (t : List Char)
  | toggleMock (enabled : Bool)

/-- Dispatch one operation. -/
def step (s : ClientState) : Op → ClientState
  | Op.connect => connectToServer s
  | Op.wsOpen => wsOpenHandler s
  | Op.wsMessage d => wsMessageHandler s d
  | Op.wsClose c => wsCloseHandler s c
  | Op.wsError => wsErrorHandler s
  | Op.timeoutFire => connectTimeoutFire s
  | Op.retryTimerFire => retryFire s
  | Op.mockReceiveFire => fireMockReceive s
  | Op.send => sendMessage s
  | Op.disconnect => closeConnection s
  | Op.clearLog => clearMessages s
  | Op.setDraft t => { s with message := t }
  | Op.toggleMock b => toggleMockServer s b

/-- The initial component state (`page.tsx` lines 24-37). -/
def initState : ClientState where
  message := []
  messages := []
  isConnected := false
  connectionStatus := "Disconnected".data
  serverUrl := "ws://localhost:8765".data
  isConnecting := false
  error := none
  useMockServer := false
  retryCount := 0
  maxRetries := 3
  wsRef := none
  retryTimer := none
  pendingReceives := []
  pendingConnectTimeouts := []
  closeLog := []

/-- One failed-retry round: an unclean close followed by the scheduled
retry firing. -/
def uncleanRound (s : ClientState) : ClientState :=
  retryFire (wsCloseHandler s false)

/-- The delay of the retry scheduled by the k-th consecutive unclean close,
read right after that close. -/
def delayBeforeRetry (s : ClientState) (k : Nat) : Option Nat :=
  (wsCloseHandler (uncleanRound^[k - 1] s) false).retryTimer

/-- A live connection established from the initial state: `connect()`
followed by the transport's open signal. -/
def liveConnectedState : ClientState :=
  wsOpenHandler (connectToServer initState)

example : mockServerResponse "test".data = "Test".data := by decide
example : mockServerResponse "hello world".data = "Hello world".data := by decide
example : liveConnectedState.retryCount = 0 := by decide
example : delayBeforeRetry liveConnectedState 2 = some 4000 := by decide

/-! ## Claim C1: the simulator transform matches the reference definition -/

/-- Claim C1: for every input, `mockServerResponse` equals the reference
transform of the specification, and on inputs of length greater than one
the output's tail equals the input's tail unchanged. -/
theorem C1_transform_matches_spec (input : List Char) :
    mockServerResponse input = transformSpec input ∧
    (1 < input.length → (mockServerResponse input).tail = input.tail) := by
  constructor
  · match input with
    | [] => rfl
    | [c] => rfl
    | c :: d :: rest => simp [mockServerResponse, transformSpec]
  · intro h
    match input with
    | [] => simp at h
    | [c] => simp at h
    | c :: d :: rest => rfl

/-- Witness for C1 at the spec's own example input. -/
theorem C1_witness :
    mockServerResponse "hello world".data = transformSpec "hello world".data ∧
    (mockServerResponse "hello world".data).tail = "hello world".data.tail :=
  ⟨(C1_transform_matches_spec "hello world".data).1,
   (C1_transform_matches_spec "hello world".data).2 (by decide)⟩

/-! ## Claim C2: send while not connected -/

/-- A mock-mode state that has never connected and holds a non-blank
draft. -/
def mockIdleState : ClientState :=
  { initState with useMockServer := true, message := "hi".data }

/-- Claim C2 counterexample: in mock mode, sending while the state is not
Connected does not fail and does append an event — the claim's "in both
simulated (mock) mode and live mode" is false for mock mode. -/
theorem C2_counterexample :
    mockIdleState.isConnected = false ∧
    jsTrim mockIdleState.message ≠ [] ∧
    (sendMessage mockIdleState).messages = [⟨MsgType.sent, "hi".data⟩] ∧
    (sendMessage mockIdleState).error = none := by decide

/-- Claim C2 (amended): in live mode a send with the transport absent or
not open only sets the NotConnected error and changes nothing else; in
mock mode the connection state is never checked and the send appends its
event without error. -/
theorem C2_not_connected_send (s : ClientState) (hmsg : jsTrim s.message ≠ []) :
    (s.useMockServer = false → wsIsOpen s = false →
      sendMessage s = { s with error := some errNotConnected }) ∧
    (s.useMockServer = true →
      (sendMessage s).messages = s.messages ++ [⟨MsgType.sent, s.message⟩] ∧
      (sendMessage s).error = s.error) := by
  unfold sendMessage
  constructor
  · intro hmode hopen
    simp [hmsg, hmode, hopen]
  · intro hmode
    simp [hmsg, hmode]

/-- A live-mode state with no transport handle and a non-blank draft. -/
def liveIdleDraftState : ClientState :=
  { initState with message := "hi".data }

/-- Witness for the amended C2 on a concrete disconnected live state. -/
theorem C2_witness :
    sendMessage liveIdleDraftState =
      { liveIdleDraftState with error := some errNotConnected } :=
  (C2_not_connected_send liveIdleDraftState (by decide)).1 rfl rfl

/-! ## Claim C4: mock-mode send -/

/-- Claim C4: in mock mode a non-blank send appends exactly one `sent`
event with the original text, schedules exactly one 100 ms mock reply
carrying the transform of the text, clears the draft, leaves the error
untouched, and firing the reply appends exactly one matching `received`
event. -/
theorem C4_mock_send (s : ClientState) (hmode : s.useMockServer = true)
    (hmsg : jsTrim s.message ≠ []) (hpend : s.pendingReceives = []) :
    (sendMessage s).messages = s.messages ++ [⟨MsgType.sent, s.message⟩] ∧
    (sendMessage s).message = [] ∧
    (sendMessage s).error = s.error ∧
    (sendMessage s).pendingReceives = [(100, mockServerResponse s.message)] ∧
    (fireMockReceive (sendMessage s)).messages =
      s.messages ++ [⟨MsgType.sent, s.message⟩,
        ⟨MsgType.received, mockServerResponse s.message⟩] ∧
    (fireMockReceive (sendMessage s)).pendingReceives = [] := by
  unfold sendMessage fireMockReceive
  simp [hmsg, hmode, hpend]

/-- A connected mock-mode state with the draft `"test"` of the spec's
end-to-end scenario. -/
def mockDraftTestState : ClientState :=
  { initState with
    useMockServer := true
    isConnected := true
    connectionStatus := "Connected (Mock Server)".data
    message := "test".data }

/-- Witness for C4 on the spec's scenario: `send("test")` yields the sent
event `"test"` and then the received event `"Test"`. -/
theorem C4_witness :
    ((sendMessage mockDraftTestState).messages =
        mockDraftTestState.messages ++ [⟨MsgType.sent, mockDraftTestState.message⟩] ∧
      (sendMessage mockDraftTestState).message = [] ∧
      (sendMessage mockDraftTestState).error = mockDraftTestState.error ∧
      (sendMessage mockDraftTestState).pendingReceives =
        [(100, mockServerResponse mockDraftTestState.message)] ∧
      (fireMockReceive (sendMessage mockDraftTestState)).messages =
        mockDraftTestState.messages ++ [⟨MsgType.sent, mockDraftTestState.message⟩,
          ⟨MsgType.received, mockServerResponse mockDraftTestState.message⟩] ∧
      (fireMockReceive (sendMessage mockDraftTestState)).pendingReceives = []) ∧
    mockServerResponse mockDraftTestState.message = "Test".data :=
  ⟨C4_mock_send mockDraftTestState (by decide) (by decide) (by decide), by decide⟩

/-! ## Claim C10: atomicity of send at the caller interface -/

/-- Claim C10: a successful send (mock mode, or live mode with the
transport open) clears the draft; a failed live send leaves everything
except the error text unchanged. -/
theorem C10_send_frame (s : ClientState) (hmsg : jsTrim s.message ≠ []) :
    (s.useMockServer = true → (sendMessage s).message = []) ∧
    (s.useMockServer = false → wsIsOpen s = true →
      (sendMessage s).message = [] ∧
      (sendMessage s).messages = s.messages ++ [⟨MsgType.sent, s.message⟩]) ∧
    (s.useMockServer = false → wsIsOpen s = false →
      sendMessage s = { s with error := some errNotConnected }) := by
  unfold sendMessage
  refine ⟨fun hmode => ?_, fun hmode hopen => ?_, fun hmode hopen => ?_⟩
  · simp [hmsg, hmode]
  · simp [hmsg, hmode, hopen]
  · simp [hmsg, hmode, hopen]

/-- Witness for C10 on a concrete disconnected live state with a
non-blank draft. -/
theorem C10_witness :
    (liveIdleDraftState.useMockServer = true →
      (sendMessage liveIdleDraftState).message = []) ∧
    (liveIdleDraftState.useMockServer = false → wsIsOpen liveIdleDraftState = true →
      (sendMessage liveIdleDraftState).message = [] ∧
      (sendMessage liveIdleDraftState).messages =
        liveIdleDraftState.messages ++ [⟨MsgType.sent, liveIdleDraftState.message⟩]) ∧
    (liveIdleDraftState.useMockServer = false → wsIsOpen liveIdleDraftState = false →
      sendMessage liveIdleDraftState =
        { liveIdleDraftState with error := some errNotConnected }) :=
  C10_send_frame liveIdleDraftState (by decide)

/-! ## Claim C3: which error kinds drive the retry policy -/

/-- A live connection attempt still in flight (`connect()` from the
initial state, before any transport signal). -/
def liveConnectingState : ClientState :=
  connectToServer initState

/-- Claim C3 counterexample: with `retryCount` strictly below
`maxRetries`, neither the transport-error handler nor a firing connect
timeout schedules a retry — the retry timer stays empty even though the
timeout demonstrably took effect (it set the timeout error). -/
theorem C3_counterexample :
    liveConnectedState.retryCount < liveConnectedState.maxRetries ∧
    (wsErrorHandler liveConnectedState).retryTimer = none ∧
    liveConnectingState.retryCount < liveConnectingState.maxRetries ∧
    (connectTimeoutFire liveConnectingState).retryTimer = none ∧
    (connectTimeoutFire liveConnectingState).error = some errTimeout := by decide

/-- Claim C3 (amended): only an unclean close drives the retry policy —
below the budget it increments `retryCount` and schedules the backoff
retry, at the budget it surfaces the terminal error and schedules
nothing; the transport-error handler and the connect-timeout firing never
touch the retry timer. -/
theorem C3_retry_policy (s : ClientState) :
    (s.retryCount < s.maxRetries →
      (wsCloseHandler s false).retryTimer = some (2000 * (s.retryCount + 1)) ∧
      (wsCloseHandler s false).retryCount = s.retryCount + 1 ∧
      (wsCloseHandler s false).error =
        some (errRetrying (s.retryCount + 1) s.maxRetries)) ∧
    (s.maxRetries ≤ s.retryCount →
      (wsCloseHandler s false).retryTimer = s.retryTimer ∧
      (wsCloseHandler s false).error = some errMaxRetries) ∧
    (wsErrorHandler s).retryTimer = s.retryTimer ∧
    (connectTimeoutFire s).retryTimer = s.retryTimer := by
  refine ⟨fun h => ?_, fun h => ?_, ?_, ?_⟩
  · simp [wsCloseHandler, h]
  · simp [wsCloseHandler, Nat.not_lt.mpr h]
  · simp [wsErrorHandler]
  · unfold connectTimeoutFire connectTimeoutBody
    cases hp : s.pendingConnectTimeouts with
    | nil => rfl
    | cons t rest =>
      cases hw : s.wsRef with
      | none => simp [hw]
      | some hdl => simp only [hw]; split_ifs <;> rfl

/-- Witness for the amended C3 at the initial state. -/
theorem C3_witness :
    (wsCloseHandler initState false).retryTimer =
        some (2000 * (initState.retryCount + 1)) ∧
      (wsErrorHandler initState).retryTimer = initState.retryTimer :=
  ⟨((C3_retry_policy initState).1 (by decide)).1, (C3_retry_policy initState).2.2.1⟩

/-! ## Claim C5: linear backoff delays -/

/-- `k` consecutive failed-retry rounds. -/
def uncleanRounds (s : ClientState) : Nat → ClientState
  | 0 => s
  | n + 1 => uncleanRound (uncleanRounds s n)

/-- Claim C5: from a fresh live connection, the delay scheduled by the
k-th consecutive unclean close (the delay before the k-th automatic
retry) is `2000 * k` for every k in `1..maxRetries` — linear, not
geometric. -/
theorem C5_linear_backoff (s : ClientState) (k : Nat)
    (hmode : s.useMockServer = false) (hconn : s.isConnecting = false)
    (hrc : s.retryCount = 0) (hmax : s.maxRetries = 3)
    (hk1 : 1 ≤ k) (hk3 : k ≤ 3) :
    (wsCloseHandler (uncleanRounds s (k - 1)) false).retryTimer =
      some (2000 * k) := by
  interval_cases k
  · show (wsCloseHandler (uncleanRounds s 0) false).retryTimer = some (2000 * 1)
    simp [uncleanRounds, wsCloseHandler, hrc, hmax]
  · show (wsCloseHandler (uncleanRound s) false).retryTimer = some (2000 * 2)
    simp [uncleanRound, retryFire, connectToServer, wsCloseHandler, closeMark,
      hrc, hmax, hmode, hconn]
  · show (wsCloseHandler (uncleanRound (uncleanRound s)) false).retryTimer =
      some (2000 * 3)
    simp [uncleanRound, retryFire, connectToServer, wsCloseHandler, closeMark,
      hrc, hmax, hmode, hconn]

/-- Witness for C5: the third retry after a fresh live connection is
scheduled 6000 ms out. -/
theorem C5_witness :
    (wsCloseHandler (uncleanRounds liveConnectedState (3 - 1)) false).retryTimer =
      some (2000 * 3) :=
  C5_linear_backoff liveConnectedState 3 (by decide) (by decide) (by decide)
    (by decide) (by decide) (by decide)

/-! ## Step invariant helpers shared by the retry-count claims -/

/-- No operation changes the fixed `maxRetries`. -/
lemma step_maxRetries (s : ClientState) (op : Op) :
    (step s op).maxRetries = s.maxRetries := by
  cases op with
  | connect =>
    simp only [step]
    unfold connectToServer
    split_ifs <;> rfl
  | wsOpen => rfl
  | wsMessage d => rfl
  | wsClose c =>
    simp only [step]
    unfold wsCloseHandler
    split_ifs <;> rfl
  | wsError => rfl
  | timeoutFire =>
    simp only [step]
    unfold connectTimeoutFire connectTimeoutBody
    cases s.pendingConnectTimeouts with
    | nil => rfl
    | cons t rest =>
      cases s.wsRef with
      | none => rfl
      | some hdl =>
        dsimp only
        split_ifs <;> rfl
  | retryTimerFire =>
    simp only [step]
    unfold retryFire connectToServer
    cases s.retryTimer with
    | none => rfl
    | some d =>
      dsimp only
      split_ifs <;> rfl
  | mockReceiveFire =>
    simp only [step]
    unfold fireMockReceive
    cases s.pendingReceives with
    | nil => rfl
    | cons p rest => rfl
  | send =>
    simp only [step]
    unfold sendMessage
    split_ifs <;> rfl
  | disconnect =>
    simp only [step]
    unfold closeConnection
    split_ifs <;> rfl
  | clearLog => rfl
  | setDraft t => rfl
  | toggleMock b =>
    simp only [step]
    unfold toggleMockServer closeConnection
    dsimp only
    split_ifs <;> rfl

/-- After any operation, `retryCount` is either reset to zero, unchanged,
or incremented by exactly one — and the increment happens only on an
unclean close while strictly below `maxRetries`. -/
lemma step_retryCount_cases (s : ClientState) (op : Op) :
    (step s op).retryCount = 0 ∨ (step s op).retryCount = s.retryCount ∨
      (op = Op.wsClose false ∧ s.retryCount < s.maxRetries ∧
        (step s op).retryCount = s.retryCount + 1) := by
  cases op with
  | connect =>
    simp only [step]
    unfold connectToServer
    split_ifs <;> simp
  | wsOpen => simp [step, wsOpenHandler]
  | wsMessage d => simp [step, wsMessageHandler]
  | wsClose c =>
    simp only [step]
    unfold wsCloseHandler
    cases c with
    | true => simp
    | false =>
      by_cases h : s.retryCount < s.maxRetries
      · simp [h]
      · simp [h]
  | wsError => simp [step, wsErrorHandler]
  | timeoutFire =>
    simp only [step]
    unfold connectTimeoutFire connectTimeoutBody
    cases s.pendingConnectTimeouts with
    | nil => simp
    | cons t rest =>
      cases s.wsRef with
      | none => simp
      | some hdl =>
        dsimp only
        split_ifs <;> simp
  | retryTimerFire =>
    simp only [step]
    unfold retryFire connectToServer
    cases s.retryTimer with
    | none => simp
    | some d =>
      dsimp only
      split_ifs <;> simp
  | mockReceiveFire =>
    simp only [step]
    unfold fireMockReceive
    cases s.pendingReceives with
    | nil => simp
    | cons p rest => simp
  | send =>
    simp only [step]
    unfold sendMessage
    split_ifs <;> simp
  | disconnect =>
    simp only [step]
    unfold closeConnection
    split_ifs <;> simp
  | clearLog => simp [step, clearMessages]
  | setDraft t => simp [step]
  | toggleMock b => exact Or.inl rfl

/-- Any operation that moves the state from not-Connected to Connected
resets `retryCount` to zero. -/
lemma step_connected_retryCount (s : ClientState) (op : Op)
    (h1 : s.isConnected = false) (h2 : (step s op).isConnected = true) :
    (step s op).retryCount = 0 := by
  cases op with
  | connect =>
    simp only [step] at h2 ⊢
    unfold connectToServer at h2 ⊢
    split_ifs at h2 ⊢ <;> simp_all
  | wsOpen => simp [step, wsOpenHandler]
  | wsMessage d => simp_all [step, wsMessageHandler]
  | wsClose c =>
    simp only [step] at h2
    unfold wsCloseHandler at h2
    split_ifs at h2 <;> simp_all
  | wsError => simp_all [step, wsErrorHandler]
  | timeoutFire =>
    simp only [step] at h2 ⊢
    unfold connectTimeoutFire connectTimeoutBody at h2 ⊢
    cases hp : s.pendingConnectTimeouts with
    | nil => simp_all
    | cons t rest =>
      rw [hp] at h2
      cases hw : s.wsRef with
      | none => simp_all
      | some hdl =>
        rw [hw] at h2
        dsimp only at h2 ⊢
        split_ifs at h2 ⊢ <;> simp_all
  | retryTimerFire =>
    simp only [step] at h2 ⊢
    unfold retryFire connectToServer at h2 ⊢
    cases ht : s.retryTimer with
    | none => simp_all
    | some d =>
      rw [ht] at h2
      dsimp only at h2 ⊢
      split_ifs at h2 ⊢ <;> simp_all
  | mockReceiveFire =>
    simp only [step] at h2 ⊢
    unfold fireMockReceive at h2 ⊢
    cases hp : s.pendingReceives with
    | nil => simp_all
    | cons p rest =>
      rw [hp] at h2
      simp_all
  | send =>
    simp only [step] at h2 ⊢
    unfold sendMessage at h2 ⊢
    split_ifs at h2 ⊢ <;> simp_all
  | disconnect =>
    simp only [step] at h2 ⊢
    unfold closeConnection at h2 ⊢
    split_ifs at h2 ⊢ <;> simp_all
  | clearLog => simp_all [step, clearMessages]
  | setDraft t => simp_all [step]
  | toggleMock b => rfl

/-! ## Claim C6: behaviour at the retry budget -/

/-- The state right after the third consecutive unclean close of a fresh
live connection (retry rounds fire in between). -/
def afterThreeUncleanCloses : ClientState :=
  wsCloseHandler (uncleanRounds liveConnectedState 2) false

/-- Claim C6 counterexample: after exactly `maxRetries` (three)
consecutive unclean closes, the manager has still scheduled a retry (the
third, at 6000 ms) and shows the retrying message, not a terminal error —
the terminal error only appears on the following unclean close. -/
theorem C6_counterexample :
    afterThreeUncleanCloses.retryCount = 3 ∧
    afterThreeUncleanCloses.retryCount = afterThreeUncleanCloses.maxRetries ∧
    afterThreeUncleanCloses.retryTimer = some 6000 ∧
    afterThreeUncleanCloses.error = some (errRetrying 3 3) ∧
    afterThreeUncleanCloses.error ≠ some errMaxRetries := by decide

/-- Claim C6 (amended): an unclean close arriving with `retryCount`
already at `maxRetries` schedules no retry and surfaces the terminal
error; `retryCount` never grows past `maxRetries` in any step; and after
`maxRetries + 1` consecutive unclean closes from a fresh live connection
no retry is pending and the terminal error is set. -/
theorem C6_retry_exhaustion (s : ClientState) (op : Op) :
    (s.maxRetries ≤ s.retryCount →
      (wsCloseHandler s false).retryTimer = s.retryTimer ∧
      (wsCloseHandler s false).error = some errMaxRetries ∧
      (wsCloseHandler s false).retryCount = s.retryCount) ∧
    ((step s op).maxRetries = s.maxRetries) ∧
    (s.retryCount ≤ s.maxRetries →
      (step s op).retryCount ≤ (step s op).maxRetries) ∧
    (wsCloseHandler (uncleanRounds liveConnectedState 3) false).retryTimer = none ∧
    (wsCloseHandler (uncleanRounds liveConnectedState 3) false).error =
      some errMaxRetries := by
  refine ⟨fun h => ?_, step_maxRetries s op, fun h => ?_, by decide, by decide⟩
  · simp [wsCloseHandler, Nat.not_lt.mpr h]
  · rw [step_maxRetries s op]
    rcases step_retryCount_cases s op with h2 | h2 | ⟨h2, h3, h4⟩ <;> omega

/-- Witness for the amended C6 at a state whose retry budget is already
exhausted. -/
def exhaustedState : ClientState :=
  { initState with retryCount := 3 }

/-- Witness for the amended C6. -/
theorem C6_witness :
    (wsCloseHandler exhaustedState false).retryTimer = exhaustedState.retryTimer ∧
      (wsCloseHandler exhaustedState false).error = some errMaxRetries ∧
      (wsCloseHandler exhaustedState false).retryCount = exhaustedState.retryCount :=
  (C6_retry_exhaustion exhaustedState Op.wsOpen).1 (by decide)

/-! ## Claim C7: the retryCount invariant -/

/-- Claim C7: `retryCount` is reset to 0 by every transition into
Connected, and the only operation that ever increases it is an unclean
close while strictly below `maxRetries`, which increments it by exactly
one. -/
theorem C7_retryCount_invariant (s : ClientState) (op : Op) :
    (s.isConnected = false → (step s op).isConnected = true →
      (step s op).retryCount = 0) ∧
    (s.retryCount < (step s op).retryCount →
      op = Op.wsClose false ∧ s.retryCount < s.maxRetries ∧
      (step s op).retryCount = s.retryCount + 1) := by
  constructor
  · exact fun h1 h2 => step_connected_retryCount s op h1 h2
  · intro hlt
    rcases step_retryCount_cases s op with h | h | h
    · omega
    · omega
    · exact h

/-- Witness for C7: the live open signal lands in Connected with
`retryCount` 0. -/
theorem C7_witness :
    (step liveConnectingState Op.wsOpen).retryCount = 0 :=
  (C7_retryCount_invariant liveConnectingState Op.wsOpen).1 (by decide) (by decide)

/-! ## Claim C8: what disconnect() guarantees -/

/-- A mock-mode state carrying a non-zero `retryCount` and a stale open
handle (reachable by toggling to mock mode while a live attempt is in
flight and the attempt then failing uncleanly). -/
def mockRetryState : ClientState :=
  { initState with
    useMockServer := true
    retryCount := 1
    wsRef := some ⟨ReadyState.opened⟩ }

/-- Claim C8 counterexample: in mock mode `closeConnection` returns before
the `retryCount` reset and the handle close, so `retryCount` stays 1, the
handle stays present, and no close call is issued. -/
theorem C8_counterexample :
    (closeConnection mockRetryState).retryCount = 1 ∧
    (closeConnection mockRetryState).wsRef = some ⟨ReadyState.opened⟩ ∧
    (closeConnection mockRetryState).closeLog = [] := by decide

/-- Claim C8 (amended): `disconnect()` always cancels the pending retry
timer, ends Disconnected and clears the error; only in live mode does it
additionally close the handle with the normal-closure code 1000 and reset
`retryCount` to 0 — the mock branch leaves `retryCount` and any handle
untouched. -/
theorem C8_disconnect (s : ClientState) :
    (closeConnection s).retryTimer = none ∧
    (closeConnection s).isConnected = false ∧
    (closeConnection s).connectionStatus = "Disconnected".data ∧
    (closeConnection s).error = none ∧
    (s.useMockServer = false →
      (closeConnection s).retryCount = 0 ∧ (closeConnection s).wsRef = none) ∧
    (s.useMockServer = false → s.wsRef ≠ none →
      (closeConnection s).closeLog = s.closeLog ++ [some 1000]) ∧
    (s.useMockServer = true →
      (closeConnection s).retryCount = s.retryCount ∧
      (closeConnection s).wsRef = s.wsRef ∧
      (closeConnection s).closeLog = s.closeLog) := by
  cases hm : s.useMockServer with
  | false =>
    cases hw : s.wsRef with
    | none => simp [closeConnection, hm, hw]
    | some hdl => simp [closeConnection, hm, hw]
  | true => simp [closeConnection, hm]

/-- Witness for the amended C8 on a live state holding a handle, a retry
timer and an error. -/
def liveFailingState : ClientState :=
  { initState with
    wsRef := some ⟨ReadyState.opened⟩
    retryTimer := some 4000
    retryCount := 2
    error := some (errRetrying 2 3)
    isConnected := true
    connectionStatus := "Connected".data }

/-- Witness for the amended C8. -/
theorem C8_witness :
    (closeConnection liveFailingState).retryTimer = none ∧
    (closeConnection liveFailingState).error = none ∧
    (closeConnection liveFailingState).retryCount = 0 ∧
    (closeConnection liveFailingState).wsRef = none ∧
    (closeConnection liveFailingState).closeLog =
      liveFailingState.closeLog ++ [some 1000] :=
  ⟨(C8_disconnect liveFailingState).1,
   (C8_disconnect liveFailingState).2.2.2.1,
   ((C8_disconnect liveFailingState).2.2.2.2.1 rfl).1,
   ((C8_disconnect liveFailingState).2.2.2.2.1 rfl).2,
   (C8_disconnect liveFailingState).2.2.2.2.2.1 rfl (by decide)⟩

/-! ## Claim C9: cancellation of stale timers -/

/-- A second live connect attempt issued after the first one failed with a
transport error. -/
def secondConnectState : ClientState :=
  connectToServer (wsErrorHandler (connectToServer initState))

/-- Claim C9 counterexample: the source never stores the connect-timeout
timer's handle, so neither a fresh `connect()` nor `disconnect()` cancels
it: after a second connect both 5000 ms timers are still pending, and they
remain pending after `disconnect()`. -/
theorem C9_counterexample :
    secondConnectState.pendingConnectTimeouts = [5000, 5000] ∧
    (closeConnection secondConnectState).pendingConnectTimeouts =
      [5000, 5000] := by decide

/-- Claim C9 (amended): `disconnect()` and a fresh `connect()` cancel the
previously scheduled retry timer, but neither removes a pending
connect-timeout timer — a fresh live connect only adds one more. -/
theorem C9_timer_cancellation (s : ClientState) :
    (closeConnection s).retryTimer = none ∧
    (s.isConnecting = false → (connectToServer s).retryTimer = none) ∧
    (closeConnection s).pendingConnectTimeouts = s.pendingConnectTimeouts ∧
    (connectToServer s).pendingConnectTimeouts =
      s.pendingConnectTimeouts ++
        (if s.isConnecting = true then []
         else if s.useMockServer = true then [] else [5000]) := by
  refine ⟨?_, fun h => ?_, ?_, ?_⟩
  · unfold closeConnection
    split_ifs <;> rfl
  · unfold connectToServer
    simp only [h]
    split_ifs <;> simp_all
  · unfold closeConnection
    split_ifs <;> rfl
  · unfold connectToServer
    split_ifs <;> simp_all

/-- Witness for the amended C9 on a state holding a pending retry timer
and a pending connect timeout. -/
def pendingTimersState : ClientState :=
  { initState with retryTimer := some 2000, pendingConnectTimeouts := [5000] }

/-- Witness for the amended C9. -/
theorem C9_witness :
    (closeConnection pendingTimersState).retryTimer = none ∧
    (connectToServer pendingTimersState).retryTimer = none ∧
    (closeConnection pendingTimersState).pendingConnectTimeouts =
      pendingTimersState.pendingConnectTimeouts ∧
    (connectToServer pendingTimersState).pendingConnectTimeouts =
      pendingTimersState.pendingConnectTimeouts ++
        (if pendingTimersState.isConnecting = true then []
         else if pendingTimersState.useMockServer = true then [] else [5000]) :=
  ⟨(C9_timer_cancellation pendingTimersState).1,
   (C9_timer_cancellation pendingTimersState).2.1 (by decide),
   (C9_timer_cancellation pendingTimersState).2.2.1,
   (C9_timer_cancellation pendingTimersState).2.2.2⟩
